import Mathlib

/-!
# Verification of the tubely video ingestion pipeline

A shallow embedding of the video-asset ingestion pipeline of the
`Fepozopo/tubely` repository (the `handlerUploadVideo` HTTP handler and the
helpers it calls), together with theorems settling the specification's
claims about it.

The handler orchestrates external effects (HTTP response writing, local
file creation/removal, subprocess invocations, object-store calls, the
database update).  Each fallible external step's outcome is an oracle
field of an `Env` record, and the handler is embedded as a function from
`Env` to the finite trace of observable events it performs, mirroring the
Go control flow statement by statement — including the two `if err != nil`
branches that call `respondWithError` but are missing a `return`, and the
placement of each `defer`.
-/

namespace Tubely

/-- An observable external effect performed by the handler.  `respond s`
is an HTTP response written with status `s`; `createFile`/`removeFile`
are local ephemeral-file effects; `putObject`/`deleteObject` are the
object-store calls; `dbUpdate url` is a persisted metadata-record update
setting the asset-reference field to `url`. -/
inductive Event where
  | respond (status : Nat)
  | parseForm
  | readHeader
  | createFile (path : String)
  | copyBody (path : String)
  | probe (path : String)
  | remux (inputPath outputPath : String)
  | removeFile (path : String)
  | putObject (bucket key : String)
  | deleteObject (bucket key : String)
  | dbUpdate (url : String)
  deriving DecidableEq, Repr

/-- The metadata record (`database.Video`): an id, the owning user, and the
two nullable reference fields. -/
structure Video where
  id : String
  userID : String
  thumbnailURL : Option String
  videoURL : Option String
  deriving DecidableEq, Repr

/-- Outcomes of every fallible external step of `handlerUploadVideo`, in
source order.  A `Bool` field is `true` when the corresponding call
succeeds; an `Option` field is `some` when the call succeeds, carrying its
result.  `sniffedType` is the result of `http.DetectContentType` on the
first 512 bytes; `probeResult` is `getVideoAspectRatio`'s result (`none`
on error, since Go returns `""` alongside the error). -/
structure Env where
  s3Bucket : String
  parseVideoID : Bool
  bearerToken : Option String
  validateJWT : Option String
  getVideo : Option Video
  parseFormOk : Bool
  formFileOk : Bool
  readHeaderOk : Bool
  seekVideoOk : Bool
  sniffedType : String
  createTemp : Option String
  copyOk : Bool
  probeResult : Option String
  seekTempOk : Bool
  remuxOk : Bool
  openRemuxedOk : Bool
  randOk : Bool
  randomHex : String
  putOk : Bool
  deleteOk : Bool
  updateOk : Bool
  deriving Repr

/-- The handler's result: the trace of events it performed, and whether it
ended in a runtime panic (nil-pointer dereference) instead of a normal
return. -/
structure HandlerResult where
  trace : List Event
  panicked : Bool
  deriving DecidableEq, Repr

/-- The orientation classifier: the `switch aspectRatio` statement of
`handlerUploadVideo`.  `"16:9"` ↦ `"landscape"`, `"9:16"` ↦ `"portrait"`,
anything else ↦ `"other"`. -/
def classifyOrientation (aspectRatio : String) : String :=
  if aspectRatio = "16:9" then "landscape"
  else if aspectRatio = "9:16" then "portrait"
  else "other"

/-- Encoding side of the Asset Reference Codec: the string
`fmt.Sprintf("%s,%s", bucket, key)` written into the record's
asset-reference field (`videoURL := fmt.Sprintf("%s,%s/%s.mp4", ...)`,
whose key part is `orientation/randomHex.mp4`). -/
def encodeAssetRef (bucket key : String) : String := bucket ++ "," ++ key

/-- Split a character list at the first comma: the list-level content of
`strings.SplitN(s, ",", 2)`.  `none` when no comma occurs (in Go,
`len(splitURL) < 2`). -/
def splitFirstComma : List Char → Option (List Char × List Char)
  | [] => none
  | c :: cs =>
    if c = ',' then some ([], cs)
    else
      match splitFirstComma cs with
      | none => none
      | some (l, r) => some (c :: l, r)

/-- Decoding side of the Asset Reference Codec: `strings.SplitN(s, ",", 2)`
giving the bucket (before the first comma) and the key (everything after);
`none` models the `len(splitURL) < 2` error branch. -/
def decodeAssetRef (s : String) : Option (String × String) :=
  match splitFirstComma s.data with
  | none => none
  | some (l, r) => some (String.mk l, String.mk r)

/-- Normal handler return: the deferred `os.Remove` calls registered so far
run in LIFO order (`deferred` is kept most-recently-registered first). -/
def finish (deferred : List String) (tr : List Event) : HandlerResult :=
  { trace := tr ++ deferred.map Event.removeFile, panicked := false }

/-- Final pipeline stage: `cfg.db.UpdateVideo` with the new encoded asset
reference, then the 200 response.  The record store applies the update
atomically, so a `dbUpdate` event is emitted exactly when the update call
succeeds. -/
def updateStage (env : Env) (key : String) (deferred : List String)
    (tr : List Event) : HandlerResult :=
  if env.updateOk then
    finish deferred
      (tr ++ [Event.dbUpdate (encodeAssetRef env.s3Bucket key), Event.respond 200])
  else finish deferred (tr ++ [Event.respond 500])

/-- The pipeline from the orientation `switch` onwards: seek the temp file,
remux (`processVideoForFastStart`, output at `tmpPath ++ ".processing"`),
open the remuxed file (only a successful open registers the
`defer os.Remove(fastStartVideoLocation)`), draw randomness, `PutObject`,
conditionally decode the old reference and `DeleteObject`, then the update
stage.  `aspectRatio` is `""` when the prober failed (the missing `return`
in the source lets execution continue into this code). -/
def afterProbe (env : Env) (video : Video) (tmpPath : String)
    (aspectRatio : String) (tr : List Event) : HandlerResult :=
  let orientation := classifyOrientation aspectRatio
  let outPath := tmpPath ++ ".processing"
  if env.seekTempOk then
    if env.remuxOk then
      if env.openRemuxedOk then
        if env.randOk then
          let key := orientation ++ "/" ++ env.randomHex ++ ".mp4"
          let tr3 := tr ++ [Event.remux tmpPath outPath, Event.createFile outPath,
            Event.putObject env.s3Bucket key]
          if env.putOk then
            match video.videoURL with
            | none => updateStage env key [outPath, tmpPath] tr3
            | some oldURL =>
              match decodeAssetRef oldURL with
              | none => finish [outPath, tmpPath] (tr3 ++ [Event.respond 500])
              | some br =>
                if env.deleteOk then
                  updateStage env key [outPath, tmpPath]
                    (tr3 ++ [Event.deleteObject env.s3Bucket br.2])
                else
                  finish [outPath, tmpPath]
                    (tr3 ++ [Event.deleteObject env.s3Bucket br.2, Event.respond 500])
          else finish [outPath, tmpPath] (tr3 ++ [Event.respond 500])
        else
          finish [outPath, tmpPath]
            (tr ++ [Event.remux tmpPath outPath, Event.createFile outPath,
              Event.respond 500])
      else
        finish [tmpPath]
          (tr ++ [Event.remux tmpPath outPath, Event.createFile outPath,
            Event.respond 500])
    else finish [tmpPath] (tr ++ [Event.remux tmpPath outPath, Event.respond 500])
  else finish [tmpPath] (tr ++ [Event.respond 500])

/-- `handlerUploadVideo` (the `src/unnamed/part_002` version, the one the
spec's pipeline describes): request-scoped validation and auth, form
parsing, 512-byte sniff, staging to a temp file, prober, then
`afterProbe`.  Two branches are embedded exactly as the (buggy) source has
them: a failed `os.CreateTemp` writes the 500 response, does not return,
and then panics evaluating `tmpLocalFile.Name()` in the `defer` statement;
a failed `getVideoAspectRatio` writes the 500 response and falls through
into the rest of the pipeline with `aspectRatio = ""`. -/
def handlerUploadVideo (env : Env) : HandlerResult :=
  if env.parseVideoID then
    match env.bearerToken with
    | none => finish [] [Event.respond 401]
    | some _ =>
      match env.validateJWT with
      | none => finish [] [Event.respond 401]
      | some userID =>
        match env.getVideo with
        | none => finish [] [Event.respond 404]
        | some video =>
          if video.userID = userID then
            if env.parseFormOk then
              if env.formFileOk then
                if env.readHeaderOk then
                  if env.seekVideoOk then
                    if env.sniffedType = "video/mp4" then
                      match env.createTemp with
                      | none =>
                        { trace := [Event.parseForm, Event.readHeader, Event.respond 500],
                          panicked := true }
                      | some tmpPath =>
                        if env.copyOk then
                          let tr1 := [Event.parseForm, Event.readHeader,
                            Event.createFile tmpPath, Event.copyBody tmpPath,
                            Event.probe tmpPath]
                          match env.probeResult with
                          | none =>
                            afterProbe env video tmpPath ""
                              (tr1 ++ [Event.respond 500])
                          | some ratio => afterProbe env video tmpPath ratio tr1
                        else
                          finish [tmpPath]
                            [Event.parseForm, Event.readHeader,
                              Event.createFile tmpPath, Event.copyBody tmpPath,
                              Event.respond 500]
                    else finish [] [Event.parseForm, Event.readHeader, Event.respond 400]
                  else finish [] [Event.parseForm, Event.readHeader, Event.respond 500]
                else finish [] [Event.parseForm, Event.readHeader, Event.respond 500]
              else finish [] [Event.parseForm, Event.respond 400]
            else finish [] [Event.parseForm, Event.respond 400]
          else finish [] [Event.respond 401]
  else finish [] [Event.respond 400]

/-- `dbVideoToSignedVideo` from `helpers.go`: with a non-nil `videoURL`,
split it on the first comma into bucket and key, presign, and return the
record with `videoURL` replaced by the presigned URL; on a missing comma
or a presign failure return the record unchanged together with an error;
with a nil `videoURL` return the record unchanged with no error.
`presign bucket key` is the oracle for `generatePresignedURL`. -/
def dbVideoToSignedVideo (presign : String → String → Option String)
    (video : Video) : Video × Option String :=
  match video.videoURL with
  | some url =>
    match decodeAssetRef url with
    | none => (video, some "invalid video URL format")
    | some br =>
      match presign br.1 br.2 with
      | none => (video, some "unable to generate presigned URL")
      | some presignedURL => ({ video with videoURL := some presignedURL }, none)
  | none => (video, none)

/-- Is this event an object-store upload? -/
def isPut : Event → Bool
  | .putObject _ _ => true
  | _ => false

/-- Is this event an object-store delete? -/
def isDelete : Event → Bool
  | .deleteObject _ _ => true
  | _ => false

/-- Is this event the creation of a local ephemeral file? -/
def isCreateFile : Event → Bool
  | .createFile _ => true
  | _ => false

/-- Is this event the removal of a local ephemeral file? -/
def isRemoveFile : Event → Bool
  | .removeFile _ => true
  | _ => false

/-- Is this event a persisted metadata-record update? -/
def isDbUpdate : Event → Bool
  | .dbUpdate _ => true
  | _ => false

/-- Is this event an HTTP response write? -/
def isRespond : Event → Bool
  | .respond _ => true
  | _ => false

/-- A run is successful when the 200 response was written. -/
def isSuccess (r : HandlerResult) : Bool := r.trace.contains (Event.respond 200)

end Tubely

namespace Tubely

/-- A record owned by `"alice"` whose asset-reference field already holds
an encoded `(bucket, key)` pair. -/
def videoA : Video :=
  { id := "v1", userID := "alice", thumbnailURL := none,
    videoURL := some "tubely,landscape/old.mp4" }

/-- A record owned by `"alice"` with no asset reference yet. -/
def videoNil : Video :=
  { id := "v2", userID := "alice", thumbnailURL := none, videoURL := none }

/-- An environment in which every external step succeeds: a fully
successful re-ingestion for a record that already has an asset
reference. -/
def envOk : Env :=
  { s3Bucket := "tubely", parseVideoID := true, bearerToken := some "tok",
    validateJWT := some "alice", getVideo := some videoA,
    parseFormOk := true, formFileOk := true, readHeaderOk := true,
    seekVideoOk := true, sniffedType := "video/mp4",
    createTemp := some "/tmp/tubely-upload.mp4", copyOk := true,
    probeResult := some "16:9", seekTempOk := true, remuxOk := true,
    openRemuxedOk := true, randOk := true, randomHex := "abc123",
    putOk := true, deleteOk := true, updateOk := true }

/-- As `envOk`, but `getVideoAspectRatio` (the Media Prober) fails. -/
def envProbeFail : Env := { envOk with probeResult := none }

/-- As `envOk`, but `os.Open` on the remuxed `.processing` file fails
after `processVideoForFastStart` succeeded. -/
def envOpenFail : Env := { envOk with openRemuxedOk := false }

/-- As `envOk`, but the authenticated caller is `"bob"`, not the record's
owner `"alice"`. -/
def envNotOwner : Env := { envOk with validateJWT := some "bob" }

/-- As `envOk`, but `DeleteObject` on the old object fails. -/
def envDeleteFail : Env := { envOk with deleteOk := false }

/-- C1: the spec requires that a Media Prober failure fail the whole
pipeline with no object-store upload; the source's `if err != nil` branch
after `getVideoAspectRatio` is missing a `return`, so the handler writes
the 500 error response and then still classifies, remuxes and calls
`PutObject`.  Evaluated at the failing input `envProbeFail`. -/
theorem C1_probe_error_still_uploads :
    (handlerUploadVideo envProbeFail).trace.contains (Event.respond 500) = true ∧
    (handlerUploadVideo envProbeFail).trace.countP isPut = 1 ∧
    (handlerUploadVideo envProbeFail).trace.contains
      (Event.putObject "tubely" "other/abc123.mp4") = true :=
  ⟨rfl, rfl, rfl⟩

/-- C2: the spec requires both ephemeral files to be removed on every exit
path; in the source, `defer os.Remove(fastStartVideoLocation)` is
registered only after `os.Open` of the remuxed file succeeds, so when that
open fails the `.processing` file is created but never removed.
Evaluated at the failing input `envOpenFail`. -/
theorem C2_open_failure_leaks_remuxed_file :
    (handlerUploadVideo envOpenFail).trace.contains
      (Event.createFile "/tmp/tubely-upload.mp4.processing") = true ∧
    (handlerUploadVideo envOpenFail).trace.contains
      (Event.removeFile "/tmp/tubely-upload.mp4.processing") = false ∧
    (handlerUploadVideo envOpenFail).trace.contains (Event.respond 500) = true :=
  ⟨rfl, rfl, rfl⟩

/-- C5 counterexample: an authenticated non-owner request is answered with
HTTP 401 (`http.StatusUnauthorized`), not the 403 the claim states; no
file I/O occurs either way. -/
theorem C5_not_owner_responds_401_not_403 :
    (handlerUploadVideo envNotOwner).trace = [Event.respond 401] ∧
    (handlerUploadVideo envNotOwner).trace.contains (Event.respond 403) = false :=
  ⟨rfl, rfl⟩

/-- C9: the claim that every error branch immediately terminates the
handler (at most one response per request) fails: after a prober error the
handler writes the 500 response and, lacking a `return`, continues through
upload and record update and writes a second, 200 response.  Evaluated at
the failing input `envProbeFail`. -/
theorem C9_two_responses_after_probe_error :
    (handlerUploadVideo envProbeFail).trace.countP isRespond = 2 ∧
    (handlerUploadVideo envProbeFail).trace.contains (Event.respond 500) = true ∧
    (handlerUploadVideo envProbeFail).trace.contains (Event.respond 200) = true :=
  ⟨rfl, rfl, rfl⟩

/-- C8: the orientation classifier maps `"16:9"` to landscape, `"9:16"` to
portrait, and every other string to other; it is total: every input maps
to exactly one of the three categories. -/
theorem C8_classifier_exact_match :
    classifyOrientation "16:9" = "landscape" ∧
    classifyOrientation "9:16" = "portrait" ∧
    (∀ s : String, s ≠ "16:9" → s ≠ "9:16" → classifyOrientation s = "other") ∧
    (∀ s : String, classifyOrientation s = "landscape" ∨
      classifyOrientation s = "portrait" ∨ classifyOrientation s = "other") := by
  refine ⟨rfl, rfl, ?_, ?_⟩
  · intro s h1 h2
    simp [classifyOrientation, h1, h2]
  · intro s
    by_cases h1 : s = "16:9"
    · exact Or.inl (by simp [classifyOrientation, h1])
    · by_cases h2 : s = "9:16"
      · exact Or.inr (Or.inl (by simp [classifyOrientation, h1, h2]))
      · exact Or.inr (Or.inr (by simp [classifyOrientation, h1, h2]))

/-- Witness for C8 at the concrete malformed ratio `"4:3"`. -/
theorem C8_classifier_witness : classifyOrientation "4:3" = "other" :=
  C8_classifier_exact_match.2.2.1 "4:3" (by decide) (by decide)

end Tubely

namespace Tubely

/-- Count-free characterization of C4's atomicity: once a `dbUpdate` event
occurs, every later event is only a response write or a deferred file
removal (so the record update, when it happens, is the pipeline's final
effectful step and happens at most once). -/
def atomicUpdateTail : List Event → Bool
  | [] => true
  | e :: es =>
    if isDbUpdate e then es.all (fun x => isRespond x || isRemoveFile x)
    else atomicUpdateTail es

theorem atomicUpdateTail_append (tr s : List Event)
    (h : tr.countP isDbUpdate = 0) :
    atomicUpdateTail (tr ++ s) = atomicUpdateTail s := by
  induction tr with
  | nil => rfl
  | cons e es ih =>
    rw [List.countP_cons] at h
    have h1 : es.countP isDbUpdate = 0 := by omega
    have h2 : isDbUpdate e = false := by
      rcases h' : isDbUpdate e with _ | _
      · rfl
      · simp [h'] at h
    simp [atomicUpdateTail, h2, ih h1]

/-- On any success of the tail pipeline, the full event trace is the input
prefix followed by remux, staging of the remuxed file, exactly one
`putObject`, the `deleteObject` exactly when the record held a decodable
old reference, then the `dbUpdate`, the 200 response and the two deferred
removals. -/
theorem afterProbe_success_trace (env : Env) (video : Video) (tmp ratio : String)
    (tr : List Event)
    (h : isSuccess (afterProbe env video tmp ratio tr) = true)
    (hn : Event.respond 200 ∉ tr) :
    (video.videoURL = none ∧
      (afterProbe env video tmp ratio tr).trace =
        tr ++ [Event.remux tmp (tmp ++ ".processing"),
          Event.createFile (tmp ++ ".processing"),
          Event.putObject env.s3Bucket
            (classifyOrientation ratio ++ "/" ++ env.randomHex ++ ".mp4"),
          Event.dbUpdate (encodeAssetRef env.s3Bucket
            (classifyOrientation ratio ++ "/" ++ env.randomHex ++ ".mp4")),
          Event.respond 200,
          Event.removeFile (tmp ++ ".processing"), Event.removeFile tmp]) ∨
    (∃ oldURL oldRef, video.videoURL = some oldURL ∧
      decodeAssetRef oldURL = some oldRef ∧
      (afterProbe env video tmp ratio tr).trace =
        tr ++ [Event.remux tmp (tmp ++ ".processing"),
          Event.createFile (tmp ++ ".processing"),
          Event.putObject env.s3Bucket
            (classifyOrientation ratio ++ "/" ++ env.randomHex ++ ".mp4"),
          Event.deleteObject env.s3Bucket oldRef.2,
          Event.dbUpdate (encodeAssetRef env.s3Bucket
            (classifyOrientation ratio ++ "/" ++ env.randomHex ++ ".mp4")),
          Event.respond 200,
          Event.removeFile (tmp ++ ".processing"), Event.removeFile tmp]) := by
  revert h
  unfold afterProbe updateStage
  repeat' split
  all_goals simp_all [finish, isSuccess]
  all_goals exact ⟨_, rfl⟩

/-- When the record holds an old reference and the old-object delete
fails, the tail pipeline adds no `dbUpdate` event. -/
theorem afterProbe_no_update (env : Env) (video : Video) (tmp ratio : String)
    (tr : List Event) (u : String) (hv : video.videoURL = some u)
    (hd : env.deleteOk = false) (htr : tr.countP isDbUpdate = 0) :
    (afterProbe env video tmp ratio tr).trace.countP isDbUpdate = 0 := by
  unfold afterProbe updateStage
  repeat' split
  all_goals simp_all [finish, isDbUpdate]

/-- The tail pipeline preserves the atomic-final-update discipline. -/
theorem afterProbe_atomic (env : Env) (video : Video) (tmp ratio : String)
    (tr : List Event) (htr : tr.countP isDbUpdate = 0) :
    atomicUpdateTail (afterProbe env video tmp ratio tr).trace = true := by
  unfold afterProbe updateStage
  repeat' split
  all_goals simp [finish, atomicUpdateTail_append _ _ htr,
    atomicUpdateTail, isDbUpdate, isRespond, isRemoveFile]

end Tubely

namespace Tubely

/-- C3: on every successful ingestion, exactly one object is uploaded; no
delete occurs before the (unique) upload; and when the record already held
an asset reference, exactly one delete is attempted. -/
theorem C3_upload_precedes_delete (env : Env)
    (h : isSuccess (handlerUploadVideo env) = true) :
    (handlerUploadVideo env).trace.countP isPut = 1 ∧
    ((handlerUploadVideo env).trace.takeWhile (fun e => ! isPut e)).countP
      isDelete = 0 ∧
    (∀ v : Video, env.getVideo = some v → ∀ u : String, v.videoURL = some u →
      (handlerUploadVideo env).trace.countP isDelete = 1) := by
  suffices H : ∀ r : HandlerResult, handlerUploadVideo env = r →
      isSuccess r = true →
      (r.trace.countP isPut = 1 ∧
        (r.trace.takeWhile (fun e => ! isPut e)).countP isDelete = 0 ∧
        (∀ v : Video, env.getVideo = some v → ∀ u : String,
          v.videoURL = some u → r.trace.countP isDelete = 1)) by
    exact H _ rfl h
  intro r hr hs
  unfold handlerUploadVideo at hr
  repeat' split at hr
  all_goals subst hr
  all_goals try (exfalso; revert hs; simp [finish, isSuccess]; done)
  all_goals
    rcases afterProbe_success_trace _ _ _ _ _ hs (by simp) with
      ⟨hnone, htr⟩ | ⟨oldURL, oldRef, hsome, hdec, htr⟩ <;>
    rw [htr] <;> simp_all [isPut, isDelete]

/-- Witness for C3 at the concrete all-success environment `envOk`, whose
record `videoA` already holds an asset reference. -/
theorem C3_witness :
    (handlerUploadVideo envOk).trace.countP isPut = 1 ∧
    (handlerUploadVideo envOk).trace.countP isDelete = 1 :=
  ⟨(C3_upload_precedes_delete envOk rfl).1,
    (C3_upload_precedes_delete envOk rfl).2.2 videoA rfl
      "tubely,landscape/old.mp4" rfl⟩

/-- C4: (i) when the record holds an old asset reference and the
old-object delete fails, no record update is persisted; (ii) on every run
whatsoever, once the record update happens every later event is only the
response write or deferred file cleanup — the asset reference is persisted
atomically as the final step or not at all. -/
theorem C4_atomic_final_update :
    (∀ (env : Env) (v : Video), env.getVideo = some v →
      ∀ u : String, v.videoURL = some u → env.deleteOk = false →
      (handlerUploadVideo env).trace.countP isDbUpdate = 0) ∧
    (∀ env : Env, atomicUpdateTail (handlerUploadVideo env).trace = true) := by
  constructor
  · intro env v hv u hu hd
    suffices H : ∀ r : HandlerResult, handlerUploadVideo env = r →
        r.trace.countP isDbUpdate = 0 by
      exact H _ rfl
    intro r hr
    unfold handlerUploadVideo at hr
    repeat' split at hr
    all_goals subst hr
    all_goals try (simp [finish, isDbUpdate]; done)
    all_goals refine afterProbe_no_update _ _ _ _ _ u ?_ hd (by simp [isDbUpdate])
    all_goals simp_all
  · intro env
    suffices H : ∀ r : HandlerResult, handlerUploadVideo env = r →
        atomicUpdateTail r.trace = true by
      exact H _ rfl
    intro r hr
    unfold handlerUploadVideo at hr
    repeat' split at hr
    all_goals subst hr
    all_goals try (simp [finish, atomicUpdateTail, isDbUpdate]; done)
    all_goals exact afterProbe_atomic _ _ _ _ _ (by simp [isDbUpdate])

/-- Witness for C4: with `envDeleteFail` (old reference present, delete
fails) no update is persisted; with `envOk` the atomic-tail discipline
holds. -/
theorem C4_witness :
    (handlerUploadVideo envDeleteFail).trace.countP isDbUpdate = 0 ∧
    atomicUpdateTail (handlerUploadVideo envOk).trace = true :=
  ⟨C4_atomic_final_update.1 envDeleteFail videoA rfl
      "tubely,landscape/old.mp4" rfl rfl,
    C4_atomic_final_update.2 envOk⟩

/-- C5 (amended): an authenticated caller who is not the record's owner is
rejected with HTTP 401 (the code uses `http.StatusUnauthorized`, not 403),
and the trace is exactly that one response: no form parsing, no file I/O,
no object-store call precedes or follows it. -/
theorem C5_amended_not_owner_401 (env : Env) (v : Video) (uid : String)
    (h1 : env.parseVideoID = true) (h2 : env.bearerToken.isSome = true)
    (h3 : env.validateJWT = some uid) (h4 : env.getVideo = some v)
    (h5 : v.userID ≠ uid) :
    handlerUploadVideo env =
      { trace := [Event.respond 401], panicked := false } := by
  obtain ⟨tok, htok⟩ := Option.isSome_iff_exists.mp h2
  simp [handlerUploadVideo, h1, htok, h3, h4, h5, finish]

/-- Witness for C5's amended theorem at the concrete non-owner
environment. -/
theorem C5_witness :
    handlerUploadVideo envNotOwner =
      { trace := [Event.respond 401], panicked := false } :=
  C5_amended_not_owner_401 envNotOwner videoA "bob" rfl rfl rfl rfl
    (by decide)

/-- C7: (i) whenever the 512-byte sniff reports anything other than
`video/mp4`, the run performs no object-store call and creates no
ephemeral file; (ii) when every step before the sniff succeeds and the
sniff is non-mp4, the handler's whole trace is form parse, header read and
the 400 rejection — nothing staged, nothing uploaded, nothing left
behind. -/
theorem C7_sniff_reject :
    (∀ env : Env, env.sniffedType ≠ "video/mp4" →
      (handlerUploadVideo env).trace.countP isPut = 0 ∧
      (handlerUploadVideo env).trace.countP isDelete = 0 ∧
      (handlerUploadVideo env).trace.countP isCreateFile = 0) ∧
    (∀ (env : Env) (v : Video) (uid : String),
      env.parseVideoID = true → env.bearerToken.isSome = true →
      env.validateJWT = some uid → env.getVideo = some v → v.userID = uid →
      env.parseFormOk = true → env.formFileOk = true →
      env.readHeaderOk = true → env.seekVideoOk = true →
      env.sniffedType ≠ "video/mp4" →
      handlerUploadVideo env =
        { trace := [Event.parseForm, Event.readHeader, Event.respond 400],
          panicked := false }) := by
  constructor
  · intro env hs
    suffices H : ∀ r : HandlerResult, handlerUploadVideo env = r →
        (r.trace.countP isPut = 0 ∧ r.trace.countP isDelete = 0 ∧
          r.trace.countP isCreateFile = 0) by
      exact H _ rfl
    intro r hr
    unfold handlerUploadVideo at hr
    repeat' split at hr
    all_goals subst hr
    all_goals simp_all [finish, isPut, isDelete, isCreateFile]
  · intro env v uid h1 h2 h3 h4 h5 h6 h7 h8 h9 h10
    obtain ⟨tok, htok⟩ := Option.isSome_iff_exists.mp h2
    simp [handlerUploadVideo, h1, htok, h3, h4, h5, h6, h7, h8, h9, h10,
      finish]

/-- As `envOk`, but the 512-byte sniff reports `image/png`. -/
def envSniffPng : Env := { envOk with sniffedType := "image/png" }

/-- Witness for C7 at the concrete `image/png` environment. -/
theorem C7_witness :
    handlerUploadVideo envSniffPng =
      { trace := [Event.parseForm, Event.readHeader, Event.respond 400],
        panicked := false } ∧
    (handlerUploadVideo envSniffPng).trace.countP isPut = 0 :=
  ⟨C7_sniff_reject.2 envSniffPng videoA "alice" rfl rfl rfl rfl rfl rfl rfl
      rfl rfl (by decide),
    (C7_sniff_reject.1 envSniffPng (by decide)).1⟩

end Tubely

namespace Tubely

theorem splitFirstComma_append (l r : List Char) (h : ',' ∉ l) :
    splitFirstComma (l ++ ',' :: r) = some (l, r) := by
  induction l with
  | nil => simp [splitFirstComma]
  | cons c cs ih =>
    have hc : ¬(c = ',') := by
      intro hc
      exact h (hc ▸ List.mem_cons_self c cs)
    have hcs : ',' ∉ cs := fun hm => h (List.mem_cons_of_mem _ hm)
    simp [splitFirstComma, hc, ih hcs]

/-- C6: the Asset Reference Codec round-trips — encoding a `(bucket, key)`
pair into the record's asset-reference string and decoding it with the
`SplitN`-on-comma split returns the original pair, for all non-empty
comma-free bucket and key strings. -/
theorem C6_codec_round_trip (bucket key : String) (hb : bucket ≠ "")
    (hk : key ≠ "") (hbc : ',' ∉ bucket.data) (hkc : ',' ∉ key.data) :
    decodeAssetRef (encodeAssetRef bucket key) = some (bucket, key) := by
  obtain ⟨bl⟩ := bucket
  obtain ⟨kl⟩ := key
  have hdata :
      (encodeAssetRef (String.mk bl) (String.mk kl)).data = bl ++ ',' :: kl := by
    show (String.mk bl ++ "," ++ String.mk kl).data = bl ++ ',' :: kl
    simp [String.append]
  simp only [decodeAssetRef, hdata, splitFirstComma_append bl kl hbc]

/-- Witness for C6 at a concrete bucket and generated object key. -/
theorem C6_witness :
    decodeAssetRef (encodeAssetRef "tubely" "landscape/abc123.mp4") =
      some ("tubely", "landscape/abc123.mp4") :=
  C6_codec_round_trip "tubely" "landscape/abc123.mp4" (by decide) (by decide)
    (by decide) (by decide)

/-- C10: `dbVideoToSignedVideo` returns a nil-reference record unchanged
with no error, and whenever it reports an error (malformed reference or
presign failure) the returned record equals the input record with every
field unchanged. -/
theorem C10_signed_video_frame (presign : String → String → Option String)
    (video : Video) :
    (video.videoURL = none →
      dbVideoToSignedVideo presign video = (video, none)) ∧
    (∀ e : String, (dbVideoToSignedVideo presign video).2 = some e →
      (dbVideoToSignedVideo presign video).1 = video) := by
  constructor
  · intro h
    simp [dbVideoToSignedVideo, h]
  · intro e he
    cases hv : video.videoURL with
    | none => simp [dbVideoToSignedVideo, hv]
    | some url =>
      cases hd : decodeAssetRef url with
      | none => simp [dbVideoToSignedVideo, hv, hd]
      | some br =>
        cases hp : presign br.1 br.2 with
        | none => simp [dbVideoToSignedVideo, hv, hd, hp]
        | some u =>
          exfalso
          simp [dbVideoToSignedVideo, hv, hd, hp] at he

/-- Witness for C10 at the concrete nil-reference record. -/
theorem C10_witness :
    dbVideoToSignedVideo (fun _ _ => none) videoNil = (videoNil, none) :=
  (C10_signed_video_frame (fun _ _ => none) videoNil).1 rfl

end Tubely
